import Mathlib

/-!
Verification development for the `sam` event-synchronization engine
(`src/sam.py`).  The Python source is shallowly embedded: each method of
the `Sam` class that the properties below concern is translated into a
pure Lean function; the mutable object state becomes an explicit
`SamState` record threaded through the functions, and Python exceptions
become an explicit `Option PyErr` component of the result (so that the
state at the moment an exception escapes is still visible).

Modelling conventions:
* Python `datetime` values are modelled by `PyDatetime`: an integer
  instant on an abstract UTC timeline together with an `aware` flag
  (naive datetimes have `aware = false`).  Comparing a naive and an
  aware datetime with `<`/`>` raises `TypeError` in Python; the model's
  `compare_time` returns `.error .typeError` in that case.  Equality
  between a `datetime` and a `str` is `False` in Python (no exception),
  which the embedding reflects by dropping the dead
  `new_event_last_updated == "null"` disjunct (it can never hold).
* Strings destined for `datetime.fromisoformat` are modelled by `JStr`:
  the literal `"null"` (`JStr.nullLit`, the fallback that
  `__safe_json_get` substitutes for an absent field), a well-formed
  timezone-aware ISO-8601 string denoting instant `t`
  (`JStr.isoAware t`), a well-formed naive one (`JStr.isoNaive t`), or
  any other string (`JStr.other s`).  `fromisoformat` succeeds exactly
  on the well-formed forms and raises `ValueError` otherwise, as in
  Python.
* Python dicts (`_cached_events`, `_sam_event_last_updated`) are
  modelled as insertion-ordered association lists; assignment to an
  existing key overwrites in place, assignment to a fresh key appends.
* The SQLite `events` table is modelled abstractly as the list of rows
  (one `Event` per executed INSERT); `DELETE FROM events WHERE id=k`
  removes the rows whose id is `k`.
* The watermark `_last_update` (an ISO string in the source) is
  modelled as the integer instant it denotes.
-/

/-- Temporal comparison outcomes, from the `Comparison` enum of `sam.py`. -/
inductive Comparison where
  | EVENT_VALID
  | EVENT_EXPIRED
  | EVENT_ONGOING
deriving DecidableEq

/-- Error categories from the `SamError` enum of `sam.py`. -/
inductive SamError where
  | HTTP
  | UNKNOWN
  | METADATA_NOT_FOUND
  | NOT_A_TAG
  | JSON_CONVERSION
deriving DecidableEq

/-- Python exception kinds that the embedded code paths can raise.
`operationalError` stands for `sqlite3.OperationalError`, raised by
`cursor.execute` on a malformed SQL statement. -/
inductive PyErr where
  | typeError
  | valueError
  | operationalError
deriving DecidableEq

/-- A Python `datetime`: an instant on an abstract UTC timeline plus the
timezone-awareness flag.  `aware = false` models a naive datetime. -/
structure PyDatetime where
  t : Int
  aware : Bool
deriving DecidableEq

/-- The instant `0001-01-01T00:00:00` (Unix seconds), used by
`datetime(year=1, month=1, day=1)` in `__parse_raw_event_data`. -/
def sentinelT : Int := -62135596800

/-- A JSON string value as seen by `datetime.fromisoformat`: the literal
`"null"`, a parseable aware ISO string, a parseable naive ISO string, or
any other (unparseable) string. -/
inductive JStr where
  | nullLit
  | isoAware (t : Int)
  | isoNaive (t : Int)
  | other (s : String)
deriving DecidableEq

/-- `datetime.fromisoformat`: succeeds on well-formed ISO strings and
raises `ValueError` on the literal `"null"` or any other malformed
string. -/
def fromisoformat : JStr → Except PyErr PyDatetime
  | JStr.isoAware t => Except.ok ⟨t, true⟩
  | JStr.isoNaive t => Except.ok ⟨t, false⟩
  | JStr.nullLit => Except.error PyErr.valueError
  | JStr.other _ => Except.error PyErr.valueError

/-- The `Event` dataclass of `sam.py`. -/
structure Event where
  title : String
  description : String
  date_time : PyDatetime
  last_updated : PyDatetime
  place : String
  id : String
  link : String
deriving DecidableEq

/-- The fields of a raw upstream event payload that `sam.py` reads.
`none` models an absent key. -/
structure RawEvent where
  urlId : Option String
  updatedAt : Option JStr
  startDate : Option JStr
  title : Option String
  description : Option String
  locationName : Option String
deriving DecidableEq

/-- The mutable state of a `Sam` instance: the two dict caches, the
outbound queue, the watermark `_last_update`, and the durable table. -/
structure SamState where
  cached_events : List (String × Event)
  sam_event_last_updated : List (String × PyDatetime)
  outbound_event_queue : List Event
  last_update : Int
  db_events : List Event
deriving DecidableEq

/-- Dict lookup on an insertion-ordered association list. -/
def alookup {α : Type} : List (String × α) → String → Option α
  | [], _ => none
  | (k', v) :: rest, k => if k' = k then some v else alookup rest k

/-- Dict assignment: overwrite in place if the key exists, append
otherwise (Python dict semantics). -/
def aupdate {α : Type} : List (String × α) → String → α → List (String × α)
  | [], k, v => [(k, v)]
  | (k', v') :: rest, k, v =>
      if k' = k then (k, v) :: rest else (k', v') :: aupdate rest k v

/-- `__safe_json_get` applied to a timestamp-valued field: an absent
field becomes the literal string `"null"`. -/
def safe_json_get_time (v : Option JStr) : JStr := v.getD JStr.nullLit

/-- `__safe_json_get` applied to a plain string field. -/
def safe_json_get_str (v : Option String) : String := v.getD "null"

/-- `__compare_time`: classifies `event_time` relative to
`current_time`.  Python raises `TypeError` when ordering a naive against
an aware datetime, which the first branch models. -/
def compare_time (current_time event_time : PyDatetime) :
    Except PyErr Comparison :=
  if current_time.aware ≠ event_time.aware then Except.error PyErr.typeError
  else if current_time.t < event_time.t then Except.ok Comparison.EVENT_VALID
  else if current_time.t > event_time.t then Except.ok Comparison.EVENT_EXPIRED
  else Except.ok Comparison.EVENT_ONGOING

/-- `__parse_raw_event_data`: builds an `Event` from a raw payload,
substituting the naive sentinel `datetime(year=1, month=1, day=1)` for a
missing `startDate` or `updatedAt` and the string `"null"` for missing
string fields.  A present but unparseable date raises `ValueError`. -/
def parse_raw_event_data (raw : RawEvent) : Except PyErr Event :=
  let start_date := safe_json_get_time raw.startDate
  let last_updated := safe_json_get_time raw.updatedAt
  let link_id := safe_json_get_str raw.urlId
  match (if start_date = JStr.nullLit
         then Except.ok (PyDatetime.mk sentinelT false)
         else fromisoformat start_date) with
  | Except.error e => Except.error e
  | Except.ok dt =>
    match (if last_updated = JStr.nullLit
           then Except.ok (PyDatetime.mk sentinelT false)
           else fromisoformat last_updated) with
    | Except.error e => Except.error e
    | Except.ok lu =>
      Except.ok
        { title := safe_json_get_str raw.title
          description := safe_json_get_str raw.description
          date_time := dt
          last_updated := lu
          place := safe_json_get_str raw.locationName
          id := link_id
          link := "https://peoply.app/events/" ++ link_id }

/-- `__event_exists_in_cache`.  Note the source parses `updatedAt` with
`fromisoformat` BEFORE the `is None` integrity guard runs, so a missing
`updatedAt` raises `ValueError` out of the function; and the guard's
second disjunct `new_event_last_updated == "null"` compares a datetime
to a string, which is always `False` in Python, so the guard reduces to
the `urlId is None` test.  On `EVENT_VALID` (upstream strictly newer)
the cached last-updated time is overwritten before `False` is
returned. -/
def event_exists_in_cache (st : SamState) (raw : RawEvent) :
    SamState × Except PyErr Bool :=
  match fromisoformat (safe_json_get_time raw.updatedAt) with
  | Except.error e => (st, Except.error e)
  | Except.ok new_event_last_updated =>
    match raw.urlId with
    | none => (st, Except.ok true)
    | some event_link_id =>
      match alookup st.sam_event_last_updated event_link_id with
      | some cached_event_last_updated =>
        match compare_time cached_event_last_updated new_event_last_updated with
        | Except.error e => (st, Except.error e)
        | Except.ok Comparison.EVENT_EXPIRED => (st, Except.ok true)
        | Except.ok Comparison.EVENT_ONGOING => (st, Except.ok true)
        | Except.ok Comparison.EVENT_VALID =>
          let lu' := aupdate st.sam_event_last_updated event_link_id
            new_event_last_updated
          ({ st with sam_event_last_updated := lu' }, Except.ok false)
      | none => (st, Except.ok false)

/-- `__non_redundant_event_add`: skip when the cache check says the
event exists; otherwise parse the payload, update both dicts, append to
the outbound queue and insert the durable row.  An exception from the
cache check or the parse escapes, leaving the state reached so far.
This definition takes the INSERT of source lines 560-563 to execute
without error, which holds exactly when no interpolated field contains
a single-quote character; `non_redundant_event_add_sql` below refines
the INSERT to the SQL-text level and models its failure mode, and
`add_sql_agrees` proves the two coincide on quote-free records. -/
def non_redundant_event_add (st : SamState) (raw : RawEvent) :
    SamState × Option PyErr :=
  match event_exists_in_cache st raw with
  | (st1, Except.error e) => (st1, some e)
  | (st1, Except.ok true) => (st1, none)
  | (st1, Except.ok false) =>
    match parse_raw_event_data raw with
    | Except.error e => (st1, some e)
    | Except.ok event =>
      ({ st1 with
          sam_event_last_updated :=
            aupdate st1.sam_event_last_updated event.id event.last_updated
          cached_events := aupdate st1.cached_events event.id event
          outbound_event_queue := st1.outbound_event_queue ++ [event]
          db_events := st1.db_events ++ [event] }, none)

/-- The single-quote character (codepoint 39), the delimiter of the
SQL string literals in the INSERT of `__non_redundant_event_add`. -/
def isSingleQuote (c : Char) : Bool := c.toNat = 39

/-- Whether interpolating the record's fields unescaped into
`INSERT INTO events VALUES ('{title}', '{description}', '{date_time}',
'{last_updated}', '{place}', '{id}', '{link}')` (source lines 560-563)
yields malformed SQL: a single-quote character inside any value closes
its string literal early and `cursor.execute` raises
`sqlite3.OperationalError`.  The two datetime fields are rendered by
`str()` and never contain a quote, so only the five string fields
matter. -/
def insert_sql_breaks (event : Event) : Bool :=
  event.title.data.any isSingleQuote
    || event.description.data.any isSingleQuote
    || event.place.data.any isSingleQuote
    || event.id.data.any isSingleQuote
    || event.link.data.any isSingleQuote

/-- `__non_redundant_event_add` with the durable INSERT modelled at the
SQL-text level: the two dict writes (source lines 556-557) and the
queue append (line 558) happen first; the INSERT of line 560 then
raises `sqlite3.OperationalError` when a field breaks the statement,
escaping with the maps and the queue already mutated and only the
table unchanged. -/
def non_redundant_event_add_sql (st : SamState) (raw : RawEvent) :
    SamState × Option PyErr :=
  match event_exists_in_cache st raw with
  | (st1, Except.error e) => (st1, some e)
  | (st1, Except.ok true) => (st1, none)
  | (st1, Except.ok false) =>
    match parse_raw_event_data raw with
    | Except.error e => (st1, some e)
    | Except.ok event =>
      let st2 := { st1 with
          sam_event_last_updated :=
            aupdate st1.sam_event_last_updated event.id event.last_updated
          cached_events := aupdate st1.cached_events event.id event
          outbound_event_queue := st1.outbound_event_queue ++ [event] }
      if insert_sql_breaks event then (st2, some PyErr.operationalError)
      else ({ st2 with db_events := st2.db_events ++ [event] }, none)

/-- The `for raw_event in get_events_response` loop of
`__update_sam_events_list`: process payloads in order, stopping at the
first escaping exception. -/
def process_raw_events (st : SamState) : List RawEvent → SamState × Option PyErr
  | [] => (st, none)
  | raw :: rest =>
    match non_redundant_event_add st raw with
    | (st1, some e) => (st1, some e)
    | (st1, none) => process_raw_events st1 rest

/-- The possible results of `__get_latest_raw_events`: a `SamError`
value, a single JSON object, or a JSON array. -/
inductive FetchResult where
  | err (e : SamError)
  | objectResp (raw : RawEvent)
  | listResp (raws : List RawEvent)
deriving DecidableEq

/-- `__update_sam_events_list`.  The two clock parameters are the wall
clock instants at entry to `__get_latest_raw_events` (line 579) and at
its return; the source's single clock read
`events_last_updated = self.__get_curent_formatted_time()` happens on
line 580, AFTER the awaited fetch returns, so it observes
`now_after_fetch`, and `now_at_fetch_entry` is never consulted.  On the
three fetch-error values (and on any other `SamError`, via the
`case _` arm) the method returns before touching any state. -/
def update_sam_events_list (st : SamState) (resp : FetchResult)
    (now_at_fetch_entry now_after_fetch : Int) : SamState × Option PyErr :=
  match resp with
  | FetchResult.err SamError.HTTP => (st, none)
  | FetchResult.err SamError.UNKNOWN => (st, none)
  | FetchResult.err SamError.JSON_CONVERSION => (st, none)
  | FetchResult.objectResp raw =>
    match non_redundant_event_add st raw with
    | (st1, some e) => (st1, some e)
    | (st1, none) => ({ st1 with last_update := now_after_fetch }, none)
  | FetchResult.listResp raws =>
    match process_raw_events st raws with
    | (st1, some e) => (st1, some e)
    | (st1, none) => ({ st1 with last_update := now_after_fetch }, none)
  | FetchResult.err _ => (st, none)

/-- First loop of `__purge_expired_events`: walk the cached events in
order collecting the keys whose start time is not strictly in the
future; a naive/aware comparison mismatch raises `TypeError` out of the
walk before any deletion happens. -/
def collectExpired (current_time : PyDatetime) :
    List (String × Event) → Except PyErr (List String)
  | [] => Except.ok []
  | (event_key, event) :: rest =>
    match compare_time current_time event.date_time with
    | Except.error e => Except.error e
    | Except.ok Comparison.EVENT_VALID => collectExpired current_time rest
    | Except.ok _ =>
      match collectExpired current_time rest with
      | Except.error e => Except.error e
      | Except.ok ks => Except.ok (event_key :: ks)

/-- Whether a key interpolated bare into `WHERE id={event_key}` reads
as a numeric SQL literal: nonempty and all decimal digits.  Any other
key (every upstream `urlId` is a slug) is parsed by SQLite as a column
name or rejected outright, so the statement raises
`sqlite3.OperationalError` (for example `no such column: e1`). -/
def sqlNumericToken (s : String) : Bool :=
  !s.data.isEmpty && s.data.all Char.isDigit

/-- The deletion loop of `__purge_expired_events` (source lines
451-456): for each collected key in order,
`del self._cached_events[event_key]` followed by
`DELETE FROM events WHERE id={event_key}`.  The interpolation is
unquoted, so unless the key is a bare numeric literal the execute
raises `sqlite3.OperationalError`, which escapes AFTER the dict entry
for that key was already deleted, aborting the loop; for a bare
numeric key the statement is well formed and deletes the rows with
that id (the theorems below only exercise non-numeric slug ids). -/
def purge_delete_loop : SamState → List String → SamState × Option PyErr
  | st, [] => (st, none)
  | st, event_key :: rest =>
    let st1 := { st with
        cached_events := st.cached_events.filter (fun p => p.1 != event_key) }
    if sqlNumericToken event_key then
      purge_delete_loop
        { st1 with
            db_events := st1.db_events.filter (fun ev => ev.id != event_key) }
        rest
    else (st1, some PyErr.operationalError)

/-- `__purge_expired_events`: the current time is always re-parsed from
the engine's own Z-suffixed format, hence timezone-aware.  The keys of
the expired entries are collected first; the deletion loop then runs
(and, for slug ids, dies on its first malformed DELETE).
`_sam_event_last_updated` is not touched on any path. -/
def purge_expired_events (st : SamState) (nowT : Int) :
    SamState × Option PyErr :=
  match collectExpired ⟨nowT, true⟩ st.cached_events with
  | Except.error e => (st, some e)
  | Except.ok to_be_deleted => purge_delete_loop st to_be_deleted

/-- `extract_latest_events`: swap the outbound queue with an empty one
and return the previous contents. -/
def extract_latest_events (st : SamState) : List Event × SamState :=
  (st.outbound_event_queue, { st with outbound_event_queue := [] })

/-- The state of a freshly constructed `Sam` (empty dicts, empty queue,
empty table) whose watermark was initialised to `t0`. -/
def initial_state (t0 : Int) : SamState :=
  { cached_events := []
    sam_event_last_updated := []
    outbound_event_queue := []
    last_update := t0
    db_events := [] }

/-- JSON shapes for the one-shot organization resolution
(`__get_organization_uuid`): the nested objects that
`extract_organization_uuid` traverses. -/
structure OrganizationObj where
  id : Option String
deriving DecidableEq

structure PagePropsObj where
  organization : Option OrganizationObj
deriving DecidableEq

structure PropsObj where
  pageProps : Option PagePropsObj
deriving DecidableEq

structure NextData where
  props : Option PropsObj
deriving DecidableEq

/-- `extract_organization_uuid`: walk
`props.pageProps.organization.id`, returning `none` as soon as a level
is absent. -/
def extract_organization_uuid (organization_json : NextData) :
    Option String :=
  match organization_json.props with
  | none => none
  | some props =>
    match props.pageProps with
    | none => none
    | some page_props =>
      match page_props.organization with
      | none => none
      | some organization =>
        match organization.id with
        | none => none
        | some org_id => some org_id

/-- The result of `extract_organization_json` as matched by
`__get_organization_uuid` (the fetch-failure raises happen earlier and
are not relevant to the schema-path property). -/
inductive OrgJsonResult where
  | samErrorNotATag
  | samErrorMetadataNotFound
  | parsedDict (j : NextData)
deriving DecidableEq

/-- The outcome of `__get_organization_uuid` from the point where the
page JSON result is in hand: the first two cases raise `RuntimeError`;
a parsed dict yields `"null"` when the UUID path is absent and the UUID
otherwise, and the function returns normally. -/
inductive StartupOutcome where
  | runtimeError (msg : String)
  | ok (uuid : String)
deriving DecidableEq

/-- The `match organization_json` block of `__get_organization_uuid`
(lines 371-382). -/
def get_organization_uuid (r : OrgJsonResult) : StartupOutcome :=
  match r with
  | OrgJsonResult.samErrorNotATag =>
      StartupOutcome.runtimeError "Organization JSON not a tag"
  | OrgJsonResult.samErrorMetadataNotFound =>
      StartupOutcome.runtimeError "Organization metadata not found"
  | OrgJsonResult.parsedDict j =>
    match extract_organization_uuid j with
    | none => StartupOutcome.ok "null"
    | some u => StartupOutcome.ok u

/-- A well-formed upstream payload for event id `e` whose `updatedAt`
is the aware instant `t` and whose other fields are absent. -/
def mkPayload (e : String) (t : Int) : RawEvent :=
  { urlId := some e, updatedAt := some (JStr.isoAware t), startDate := none,
    title := none, description := none, locationName := none }

/-- A payload that carries `urlId` but lacks `updatedAt`. -/
def payloadMissingUpdatedAt : RawEvent :=
  { urlId := some "e1", updatedAt := none, startDate := some (JStr.isoAware 50),
    title := some "T", description := none, locationName := none }

/-- A payload with a valid aware `updatedAt` but no `startDate`. -/
def payloadNoStartDate : RawEvent :=
  { urlId := some "e1", updatedAt := some (JStr.isoAware 60), startDate := none,
    title := none, description := none, locationName := none }

/-- C1: on a tick whose fetch succeeds (here: an empty event list) with
wall clock 100 at entry to the fetch step and 200 when the fetch
returns, the watermark is set to 200, the POST-fetch timestamp — not
the pre-fetch timestamp 100 that the claim (and the spec) prescribe.
This evaluates `__update_sam_events_list`, whose only clock read is on
line 580, after the awaited fetch of line 579 has returned. -/
theorem C1_watermark_is_post_fetch :
    ((update_sam_events_list (initial_state 0) (FetchResult.listResp [])
        100 200).1).last_update = 200 ∧ (200 : Int) ≠ 100 :=
  ⟨rfl, by decide⟩

/-- C2: if the bulk fetch of a tick fails with any `SamError` (HTTP
status ≥ 400, transport error, or JSON-conversion error),
`__update_sam_events_list` returns at once: the watermark, both maps,
the outbound queue and the durable table are exactly the pre-tick state,
and no exception escapes, so the next tick retries with the unchanged
watermark. -/
theorem C2_failed_fetch_leaves_state_unchanged (st : SamState) (e : SamError)
    (a b : Int) :
    update_sam_events_list st (FetchResult.err e) a b = (st, none) := by
  cases e <;> rfl

/-- C3: the claim fails — a payload that lacks `updatedAt` does NOT get
skipped: `__event_exists_in_cache` calls
`datetime.fromisoformat("null")` before its integrity guard, raising
`ValueError`, which aborts the whole tick.  Concretely, a batch whose
first payload lacks `updatedAt` and whose second payload is well-formed
terminates with the exception, the second payload is never processed,
and the watermark is not advanced: the state is exactly the initial
state. -/
theorem C3_missing_updatedAt_aborts_tick :
    update_sam_events_list (initial_state 0)
        (FetchResult.listResp [payloadMissingUpdatedAt, mkPayload "e2" 7])
        100 200
      = (initial_state 0, some PyErr.valueError) := by decide

/-- C9: `extract_latest_events` returns the entire outbound queue in
append order, resets the queue to empty while leaving every other
component of the state unchanged, and a second drain with no
intervening tick returns the empty list. -/
theorem C9_drain_is_atomic_swap (st : SamState) :
    (extract_latest_events st).1 = st.outbound_event_queue
    ∧ (extract_latest_events st).2 = { st with outbound_event_queue := [] }
    ∧ (extract_latest_events ((extract_latest_events st).2)).1 = [] :=
  ⟨rfl, rfl, rfl⟩

/-- Helper: the cache-existence check never touches the outbound
queue (it mutates at most `_sam_event_last_updated`). -/
theorem event_exists_in_cache_queue (st : SamState) (raw : RawEvent) :
    ((event_exists_in_cache st raw).1).outbound_event_queue
      = st.outbound_event_queue := by
  unfold event_exists_in_cache
  repeat' split
  all_goals rfl

/-- C5 counterexample: processing a NEW payload for `e1` and then an
UPDATED payload for the same `e1` within the same undrained window
leaves TWO entries for id `e1` in the outbound queue — the second
append does not replace the first, so the queue does not contain at
most one entry per event id. -/
theorem C5_counterexample_duplicate_queue_entries :
    ((process_raw_events (initial_state 0)
        [mkPayload "e1" 1, mkPayload "e1" 2]).1).outbound_event_queue.map
        Event.id = ["e1", "e1"] := by decide

/-- C5 amended: `__non_redundant_event_add` only ever appends to the
outbound queue — one entry per emitted record, at the tail, never
removing or replacing a previously queued entry (so an id emitted twice
between drains appears twice, in append order). -/
theorem C5_amended_queue_append_only (st : SamState) (raw : RawEvent) :
    ((non_redundant_event_add st raw).1).outbound_event_queue
        = st.outbound_event_queue
    ∨ ∃ ev : Event, ((non_redundant_event_add st raw).1).outbound_event_queue
        = st.outbound_event_queue ++ [ev] := by
  have hq := event_exists_in_cache_queue st raw
  unfold non_redundant_event_add
  rcases hee : event_exists_in_cache st raw with ⟨st1, r⟩
  rw [hee] at hq
  simp only at hq
  rcases r with e | b
  · left; simpa using hq
  · rcases b with _ | _
    · rcases hp : parse_raw_event_data raw with e | event
      · left; simpa [hp] using hq
      · right; exact ⟨event, by simp [hp, hq]⟩
    · left; simpa using hq

/-- A concrete stored event: starts at instant 10, last updated at 5. -/
def eventE1 : Event :=
  { title := "T", description := "D", date_time := ⟨10, true⟩,
    last_updated := ⟨5, true⟩, place := "L", id := "e1",
    link := "https://peoply.app/events/e1" }

/-- A state that knows exactly the event `e1`, with matching entries in
both maps and one durable row. -/
def stC6 : SamState :=
  { cached_events := [("e1", eventE1)],
    sam_event_last_updated := [("e1", ⟨5, true⟩)],
    outbound_event_queue := [], last_update := 0, db_events := [eventE1] }

/-- C6: the claim fails against the source — at a state tracking the
single expired event `e1` (start instant 10, sweep instant 20), the
sweep deletes the known-events map entry, but the unquoted
`DELETE FROM events WHERE id=e1` raises `sqlite3.OperationalError`
(`no such column: e1`), aborting the sweep: the durable row survives,
and the last-updated map entry survives too (no code path ever deletes
it).  So the sweep removes neither the durable row nor the entries in
both maps of an event it expires.  Only the outbound queue conjunct of
the claim holds (nothing is appended to it). -/
theorem C6_sweep_delete_raises :
    purge_expired_events stC6 20
      = ({ stC6 with cached_events := [] }, some PyErr.operationalError)
    ∧ ((purge_expired_events stC6 20).1).db_events = [eventE1]
    ∧ alookup ((purge_expired_events stC6 20).1).sam_event_last_updated "e1"
        = some ⟨5, true⟩
    ∧ ((purge_expired_events stC6 20).1).outbound_event_queue = [] := by
  decide

/-- C7: a payload with `startDate` absent is parsed into a record whose
start instant is the NAIVE sentinel `0001-01-01T00:00:00` (no UTC
marker, contrary to the claim's `0001-01-01T00:00:00Z`), and the record
is stored; but the next expiration sweep, whose reference time is
timezone-aware, raises `TypeError` when ordering the aware `now`
against the naive sentinel, so the sweep aborts and removes nothing:
the record survives. -/
theorem C7_naive_sentinel_breaks_sweep :
    ((alookup ((non_redundant_event_add (initial_state 0)
          payloadNoStartDate).1).cached_events "e1").map Event.date_time
        = some ⟨sentinelT, false⟩)
    ∧ purge_expired_events
          ((non_redundant_event_add (initial_state 0) payloadNoStartDate).1)
          100
        = ((non_redundant_event_add (initial_state 0) payloadNoStartDate).1,
           some PyErr.typeError) := by decide

/-- A parsed `__NEXT_DATA__` document whose
`props.pageProps.organization` object exists but carries no `id`. -/
def nextDataNoOrgId : NextData :=
  { props := some { pageProps := some { organization := some { id := none } } } }

/-- A parsed `__NEXT_DATA__` document with no `props` at all. -/
def nextDataNoProps : NextData := { props := none }

/-- C8 counterexample: when the JSON path
`props.pageProps.organization.id` is absent from the parsed document,
`__get_organization_uuid` does NOT fail — it returns normally with the
string `"null"` as the organization id, so startup continues. -/
theorem C8_counterexample_absent_path_returns_null :
    get_organization_uuid (OrgJsonResult.parsedDict nextDataNoOrgId)
      = StartupOutcome.ok "null" := rfl

/-- C8 amended: whenever the UUID path is absent from the parsed
document (at any level), organization resolution does not fail with a
SCHEMA error — it returns normally with the fallback string `"null"`
as the organization id, and startup continues with that value. -/
theorem C8_absent_path_yields_null_uuid (j : NextData)
    (h : extract_organization_uuid j = none) :
    get_organization_uuid (OrgJsonResult.parsedDict j)
      = StartupOutcome.ok "null" := by
  simp [get_organization_uuid, h]

/-- Witness for the amended C8 theorem on a document with no `props`
key. -/
theorem C8_absent_path_witness :
    extract_organization_uuid nextDataNoProps = none
    ∧ get_organization_uuid (OrgJsonResult.parsedDict nextDataNoProps)
        = StartupOutcome.ok "null" :=
  ⟨rfl, C8_absent_path_yields_null_uuid nextDataNoProps rfl⟩

/-- Helper: looking up the key just assigned yields the assigned
value. -/
theorem alookup_aupdate_self {α : Type} (l : List (String × α)) (k : String)
    (v : α) : alookup (aupdate l k v) k = some v := by
  induction l with
  | nil => simp [aupdate, alookup]
  | cons p rest ih =>
    obtain ⟨k', v'⟩ := p
    by_cases hk : k' = k
    · simp [aupdate, alookup, hk]
    · simp [aupdate, alookup, hk, ih]

/-- The event that `__parse_raw_event_data` builds from
`mkPayload e t`: all string fields default to `"null"`, the start
instant defaults to the naive sentinel, the last-updated instant is the
payload's. -/
def mkEvent (e : String) (t : Int) : Event :=
  { title := "null", description := "null",
    date_time := ⟨sentinelT, false⟩, last_updated := ⟨t, true⟩,
    place := "null", id := e, link := "https://peoply.app/events/" ++ e }

theorem parse_mkPayload (e : String) (t : Int) :
    parse_raw_event_data (mkPayload e t) = Except.ok (mkEvent e t) := rfl

/-- Helper: cache check on a well-formed payload for an unknown id —
classification NEW, no state change. -/
theorem exists_in_cache_mkPayload_new (st : SamState) (e : String) (t : Int)
    (h : alookup st.sam_event_last_updated e = none) :
    event_exists_in_cache st (mkPayload e t) = (st, Except.ok false) := by
  simp [event_exists_in_cache, mkPayload, safe_json_get_time, fromisoformat, h]

/-- Helper: cache check on a well-formed payload for a known id —
strictly newer overwrites the stored timestamp and classifies UPDATED;
otherwise UNCHANGED with no state change. -/
theorem exists_in_cache_mkPayload_known (st : SamState) (e : String)
    (v t : Int)
    (h : alookup st.sam_event_last_updated e = some ⟨v, true⟩) :
    event_exists_in_cache st (mkPayload e t)
      = if v < t
        then ({ st with sam_event_last_updated :=
                  aupdate st.sam_event_last_updated e ⟨t, true⟩ },
              Except.ok false)
        else (st, Except.ok true) := by
  by_cases hvt : v < t
  · simp [event_exists_in_cache, mkPayload, safe_json_get_time, fromisoformat,
      h, compare_time, hvt]
  · by_cases htv : t < v
    · simp [event_exists_in_cache, mkPayload, safe_json_get_time,
        fromisoformat, h, compare_time, hvt, htv, gt_iff_lt]
    · simp [event_exists_in_cache, mkPayload, safe_json_get_time,
        fromisoformat, h, compare_time, hvt, htv, gt_iff_lt]

/-- Helper: processing a well-formed payload for an unknown id adds the
parsed record everywhere and stores its last-updated time. -/
theorem add_mkPayload_new (st : SamState) (e : String) (t : Int)
    (h : alookup st.sam_event_last_updated e = none) :
    ∃ st', non_redundant_event_add st (mkPayload e t) = (st', none)
      ∧ alookup st'.sam_event_last_updated e = some ⟨t, true⟩ := by
  refine ⟨{ st with
      sam_event_last_updated :=
        aupdate st.sam_event_last_updated e ⟨t, true⟩
      cached_events := aupdate st.cached_events e (mkEvent e t)
      outbound_event_queue := st.outbound_event_queue ++ [mkEvent e t]
      db_events := st.db_events ++ [mkEvent e t] }, ?_, ?_⟩
  · simp [non_redundant_event_add, exists_in_cache_mkPayload_new st e t h,
      parse_mkPayload, mkEvent]
  · exact alookup_aupdate_self _ _ _

/-- Helper: processing a well-formed payload for a known id leaves the
stored last-updated time at the maximum of the old and new values, and
never raises. -/
theorem add_mkPayload_known_max (st : SamState) (e : String) (v t : Int)
    (h : alookup st.sam_event_last_updated e = some ⟨v, true⟩) :
    ∃ st', non_redundant_event_add st (mkPayload e t) = (st', none)
      ∧ alookup st'.sam_event_last_updated e = some ⟨max v t, true⟩ := by
  by_cases hvt : v < t
  · refine ⟨{ st with
        sam_event_last_updated :=
          aupdate (aupdate st.sam_event_last_updated e ⟨t, true⟩) e ⟨t, true⟩
        cached_events := aupdate st.cached_events e (mkEvent e t)
        outbound_event_queue := st.outbound_event_queue ++ [mkEvent e t]
        db_events := st.db_events ++ [mkEvent e t] }, ?_, ?_⟩
    · simp [non_redundant_event_add, exists_in_cache_mkPayload_known st e v t h,
        hvt, parse_mkPayload, mkEvent]
    · rw [max_eq_right (le_of_lt hvt)]
      exact alookup_aupdate_self _ _ _
  · refine ⟨st, ?_, ?_⟩
    · simp [non_redundant_event_add, exists_in_cache_mkPayload_known st e v t h,
        hvt]
    · rw [max_eq_left (not_lt.mp hvt)]
      exact h

/-- Helper: folding a sequence of well-formed payloads for a known id
leaves the stored last-updated time at the running maximum. -/
theorem process_mkPayloads_known (e : String) (ts : List Int) :
    ∀ (st : SamState) (v : Int),
      alookup st.sam_event_last_updated e = some ⟨v, true⟩ →
      ∃ st', process_raw_events st (ts.map (mkPayload e)) = (st', none)
        ∧ alookup st'.sam_event_last_updated e
            = some ⟨ts.foldl max v, true⟩ := by
  induction ts with
  | nil => exact fun st v h => ⟨st, rfl, by simpa using h⟩
  | cons t rest ih =>
    intro st v h
    obtain ⟨st1, hadd, hlu⟩ := add_mkPayload_known_max st e v t h
    obtain ⟨st', hproc, hlu'⟩ := ih st1 (max v t) hlu
    refine ⟨st', ?_, ?_⟩
    · simp [process_raw_events, hadd, hproc]
    · simpa using hlu'

/-- C4: for an id `e` not yet in the store and a nonempty sequence of
successfully processed well-formed payloads carrying `e`, (1) the tick
loop processes them all without an exception and the finally stored
last-updated instant is the maximum `updatedAt` of the sequence; (2) at
every single observation the stored instant is monotonically
non-decreasing; (3) a payload whose `updatedAt` is strictly older than
the stored instant is classified UNCHANGED and changes no stored state
at all (the integrity warning itself is a log line, outside the
model). -/
theorem C4_stored_last_updated_monotone (e : String) (t : Int)
    (ts : List Int) (st : SamState)
    (h0 : alookup st.sam_event_last_updated e = none) :
    (∃ st', process_raw_events st ((t :: ts).map (mkPayload e)) = (st', none)
       ∧ alookup st'.sam_event_last_updated e
           = some ⟨ts.foldl max t, true⟩)
    ∧ (∀ (st2 : SamState) (v u : Int),
         alookup st2.sam_event_last_updated e = some ⟨v, true⟩ →
         ∃ w, v ≤ w ∧
           alookup ((non_redundant_event_add st2
               (mkPayload e u)).1).sam_event_last_updated e
             = some ⟨w, true⟩)
    ∧ (∀ (st2 : SamState) (v u : Int),
         alookup st2.sam_event_last_updated e = some ⟨v, true⟩ → u < v →
         non_redundant_event_add st2 (mkPayload e u) = (st2, none)) := by
  refine ⟨?_, ?_, ?_⟩
  · obtain ⟨st1, hadd, hlu⟩ := add_mkPayload_new st e t h0
    obtain ⟨st', hproc, hlu'⟩ := process_mkPayloads_known e ts st1 t hlu
    refine ⟨st', ?_, hlu'⟩
    simp [process_raw_events, hadd, hproc]
  · intro st2 v u h
    obtain ⟨st', hadd, hlu⟩ := add_mkPayload_known_max st2 e v u h
    exact ⟨max v u, le_max_left v u, by rw [hadd]; exact hlu⟩
  · intro st2 v u h hu
    have hnvu : ¬ v < u := not_lt.mpr (le_of_lt hu)
    simp [non_redundant_event_add,
      exists_in_cache_mkPayload_known st2 e v u h, hnvu]

/-- Witness for C4 at id `"e1"`, payload sequence with `updatedAt`
instants `5, 3, 7`, starting from the freshly constructed state. -/
theorem C4_stored_last_updated_monotone_witness :
    alookup (initial_state 0).sam_event_last_updated "e1" = none
    ∧ ((∃ st', process_raw_events (initial_state 0)
            (([5, 3, 7] : List Int).map (mkPayload "e1")) = (st', none)
         ∧ alookup st'.sam_event_last_updated "e1"
             = some ⟨([3, 7] : List Int).foldl max 5, true⟩)
       ∧ (∀ (st2 : SamState) (v u : Int),
            alookup st2.sam_event_last_updated "e1" = some ⟨v, true⟩ →
            ∃ w, v ≤ w ∧
              alookup ((non_redundant_event_add st2
                  (mkPayload "e1" u)).1).sam_event_last_updated "e1"
                = some ⟨w, true⟩)
       ∧ (∀ (st2 : SamState) (v u : Int),
            alookup st2.sam_event_last_updated "e1" = some ⟨v, true⟩ →
            u < v →
            non_redundant_event_add st2 (mkPayload "e1" u) = (st2, none))) :=
  ⟨rfl, C4_stored_last_updated_monotone "e1" 5 [3, 7] (initial_state 0) rfl⟩

/-- An UPDATED-classified payload whose `startDate` is present but not
a parseable ISO string, so that `__parse_raw_event_data` raises after
classification has already advanced the stored timestamp. -/
def updatedPayloadBadStart (e : String) (t : Int) : RawEvent :=
  { urlId := some e, updatedAt := some (JStr.isoAware t),
    startDate := some (JStr.other "not-a-date"),
    title := none, description := none, locationName := none }

/-- The single-quote character as a one-character string, built from
its codepoint. -/
def squote : String := (Char.ofNat 39).toString

/-- An UPDATED-classified payload that parses successfully but whose
title contains a single quote, so that the INSERT statement built from
the parsed record is malformed and the database write raises. -/
def updatedPayloadQuote (e : String) (t : Int) : RawEvent :=
  { urlId := some e, updatedAt := some (JStr.isoAware t),
    startDate := none,
    title := some ("it" ++ squote ++ "s on"), description := none,
    locationName := none }

/-- The record that `__parse_raw_event_data` builds from
`updatedPayloadQuote e t`. -/
def quoteEvent (e : String) (t : Int) : Event :=
  { title := "it" ++ squote ++ "s on", description := "null",
    date_time := ⟨sentinelT, false⟩, last_updated := ⟨t, true⟩,
    place := "null", id := e, link := "https://peoply.app/events/" ++ e }

theorem parse_updatedPayloadQuote (e : String) (t : Int) :
    parse_raw_event_data (updatedPayloadQuote e t)
      = Except.ok (quoteEvent e t) := rfl

/-- Helper: the quote in the title makes the INSERT statement built
from `quoteEvent e t` malformed. -/
theorem quoteEvent_breaks (e : String) (t : Int) :
    insert_sql_breaks (quoteEvent e t) = true := by
  have hq : ("it" ++ squote ++ "s on").data.any isSingleQuote = true := by
    decide
  simp only [insert_sql_breaks, quoteEvent, hq, Bool.true_or]

/-- A state that knows id `"e1"` only through the last-updated map. -/
def stC10 : SamState :=
  { cached_events := [], sam_event_last_updated := [("e1", ⟨5, true⟩)],
    outbound_event_queue := [], last_update := 0, db_events := [] }

/-- C10 counterexample: at the concrete state `stC10` (id `"e1"`
stored with instant 5), the UPDATED payload `updatedPayloadQuote "e1" 9`
parses fine but its title breaks the INSERT, and the resulting
`sqlite3.OperationalError` escapes with the known-events map and the
outbound queue already mutated for `"e1"` (the dict writes of source
lines 556-557 and the append of line 558 precede the INSERT of line
560) — refuting the claim's assertion that a database-write failure
leaves the known-events map and the outbound queue unchanged for the
id.  Only the durable table is unchanged. -/
theorem C10_counterexample_db_raise_mutates :
    (non_redundant_event_add_sql stC10 (updatedPayloadQuote "e1" 9)).2
      = some PyErr.operationalError
    ∧ alookup ((non_redundant_event_add_sql stC10
        (updatedPayloadQuote "e1" 9)).1).cached_events "e1" ≠ none
    ∧ ((non_redundant_event_add_sql stC10
        (updatedPayloadQuote "e1" 9)).1).outbound_event_queue.map Event.id
      = ["e1"]
    ∧ ((non_redundant_event_add_sql stC10
        (updatedPayloadQuote "e1" 9)).1).db_events = stC10.db_events := by
  decide

/-- C10 amended: for a known id whose incoming `updatedAt` is strictly
newer, `__event_exists_in_cache` overwrites the stored last-updated
timestamp already during classification, before any record is built or
any map, queue or table is touched.  Consequently, when record
construction raises (an unparseable `startDate`), the escaping state
carries the advanced timestamp while the known-events map, the
outbound queue and the durable table are unchanged; when instead the
database write raises (a quote-bearing field), the escaping state
carries the advanced timestamp AND the updated known-events map entry
AND the queued record — only the durable table is unchanged. -/
theorem C10_amended_exception_frames (st : SamState) (e : String)
    (v t : Int)
    (h : alookup st.sam_event_last_updated e = some ⟨v, true⟩)
    (hvt : v < t) :
    event_exists_in_cache st (updatedPayloadBadStart e t)
      = ({ st with sam_event_last_updated :=
            aupdate st.sam_event_last_updated e ⟨t, true⟩ }, Except.ok false)
    ∧ non_redundant_event_add_sql st (updatedPayloadBadStart e t)
      = ({ st with sam_event_last_updated :=
            aupdate st.sam_event_last_updated e ⟨t, true⟩ },
         some PyErr.valueError)
    ∧ ∃ ev : Event,
        parse_raw_event_data (updatedPayloadQuote e t) = Except.ok ev
        ∧ (let r := non_redundant_event_add_sql st (updatedPayloadQuote e t)
           r.2 = some PyErr.operationalError
           ∧ r.1.sam_event_last_updated
               = aupdate (aupdate st.sam_event_last_updated e ⟨t, true⟩) e
                   ⟨t, true⟩
           ∧ r.1.cached_events = aupdate st.cached_events e ev
           ∧ r.1.outbound_event_queue = st.outbound_event_queue ++ [ev]
           ∧ r.1.db_events = st.db_events
           ∧ r.1.last_update = st.last_update) := by
  have h1 : event_exists_in_cache st (updatedPayloadBadStart e t)
      = ({ st with sam_event_last_updated :=
            aupdate st.sam_event_last_updated e ⟨t, true⟩ },
         Except.ok false) := by
    simp [event_exists_in_cache, updatedPayloadBadStart, safe_json_get_time,
      fromisoformat, h, compare_time, hvt]
  refine ⟨h1, ?_, ?_⟩
  · have h2 : parse_raw_event_data (updatedPayloadBadStart e t)
        = Except.error PyErr.valueError := rfl
    simp only [non_redundant_event_add_sql, h1, h2]
  · refine ⟨quoteEvent e t, parse_updatedPayloadQuote e t, ?_⟩
    have h3 : event_exists_in_cache st (updatedPayloadQuote e t)
        = ({ st with sam_event_last_updated :=
              aupdate st.sam_event_last_updated e ⟨t, true⟩ },
           Except.ok false) := by
      simp [event_exists_in_cache, updatedPayloadQuote, safe_json_get_time,
        fromisoformat, h, compare_time, hvt]
    simp only [non_redundant_event_add_sql, h3, parse_updatedPayloadQuote]
    rw [if_pos (quoteEvent_breaks e t)]
    exact ⟨rfl, rfl, rfl, rfl, rfl, rfl⟩

/-- The state `stC10` with its stored timestamp for `"e1"` advanced to
instant 9 and nothing else changed. -/
def stC10_after : SamState :=
  { stC10 with
      sam_event_last_updated :=
        aupdate stC10.sam_event_last_updated "e1" ⟨9, true⟩ }

/-- Witness for the amended C10 theorem at the concrete state `stC10`
with stored instant 5 and incoming instant 9. -/
theorem C10_amended_exception_frames_witness :
    (alookup stC10.sam_event_last_updated "e1" = some ⟨5, true⟩
     ∧ (5 : Int) < 9)
    ∧ (event_exists_in_cache stC10 (updatedPayloadBadStart "e1" 9)
        = (stC10_after, Except.ok false)
       ∧ non_redundant_event_add_sql stC10 (updatedPayloadBadStart "e1" 9)
        = (stC10_after, some PyErr.valueError)
       ∧ ∃ ev : Event,
          parse_raw_event_data (updatedPayloadQuote "e1" 9) = Except.ok ev
          ∧ (let r := non_redundant_event_add_sql stC10
               (updatedPayloadQuote "e1" 9)
             r.2 = some PyErr.operationalError
             ∧ r.1.sam_event_last_updated
                 = aupdate (aupdate stC10.sam_event_last_updated "e1"
                     ⟨9, true⟩) "e1" ⟨9, true⟩
             ∧ r.1.cached_events = aupdate stC10.cached_events "e1" ev
             ∧ r.1.outbound_event_queue
                 = stC10.outbound_event_queue ++ [ev]
             ∧ r.1.db_events = stC10.db_events
             ∧ r.1.last_update = stC10.last_update)) :=
  ⟨⟨rfl, by decide⟩,
   C10_amended_exception_frames stC10 "e1" 5 9 rfl (by decide)⟩

/-- On records whose interpolated fields are quote-free, the SQL-level
refinement and `non_redundant_event_add` coincide. -/
theorem add_sql_agrees (st : SamState) (raw : RawEvent)
    (hq : ∀ event, parse_raw_event_data raw = Except.ok event →
         insert_sql_breaks event = false) :
    non_redundant_event_add_sql st raw = non_redundant_event_add st raw := by
  unfold non_redundant_event_add_sql non_redundant_event_add
  rcases event_exists_in_cache st raw with ⟨st1, r⟩
  rcases r with e | b
  · rfl
  · rcases b with _ | _
    · rcases hp : parse_raw_event_data raw with e | event
      · simp [hp]
      · simp [hp, hq event hp]
    · rfl
